import Mathlib

/-!
Verification development for the MoviePilot-Plugins repository (two plugins:
plugins.v2/doubanrank and plugins.v2/tmdbtrendssubscribe).

The definitions below are a shallow embedding of the plugin code.  External
collaborators (HTTP client, recognition backend, library backend, subscription
backend) are modelled as oracles: each backend call site is represented by an
`Except Unit` value describing what that call returned, with `Except.error ()`
standing for a raised exception at that call site.  Python floats that hold
ratings are modelled as `Rat`; parsing a numeric string is abstracted to the
rational it denotes.  Durable key-value blobs are modelled as explicit state
(a list of history records for DoubanRank, a pair of in-memory set and cache
file lines for TmdbTrendsSubscribe).
-/

set_option maxRecDepth 8000

/-- Python rendering of an optional string inside an f-string: `None` prints
as the literal text `None`. -/
def pyStr : Option String → String
  | some s => s
  | none => "None"

/-- Python truthiness of an optional string: `None` and the empty string are
falsy. -/
def pyTruthyStr : Option String → Bool
  | some s => s != ""
  | none => false

/-- Python substring containment `needle in hay`, on the underlying
character lists. -/
def strIn (needle hay : String) : Bool :=
  (List.range (hay.toList.length + 1)).any
    (fun i => ((hay.toList.drop i).take needle.toList.length) == needle.toList)

/-- Media type tag (app.schemas MediaType as used by the plugins). -/
inductive MType
  | movie
  | tv
deriving Repr, DecidableEq

/-- The fields of a recognized MediaInfo object that the plugins read. -/
structure MediaStub where
  title : String
  year : Option String
  typeValue : String
  mtype : MType
  tmdbId : Option Nat
  season : Option Nat
  titleYear : String
  poster : String
  overview : Option String
deriving Repr, DecidableEq

/-- Kind tag of a posted notification (NotificationType). -/
inductive NotifyKind
  | subscribe
  | siteMessage
deriving Repr, DecidableEq

/-- One call to post_message. -/
structure Notification where
  kind : NotifyKind
  title : String
  text : String
deriving Repr, DecidableEq

/-- Backend-call labels used to record which existence checks and add calls a
registration performed, in order. -/
inductive RegCall
  | checkLibrary
  | checkSubscribe
  | addSub
deriving Repr, DecidableEq

namespace DoubanRank

/-- One record of the durable `history` list, exactly the dict written by
`__save_history` in plugins.v2/doubanrank. -/
structure HistoryRecord where
  title : Option String
  typeValue : String
  year : Option String
  poster : String
  overview : Option String
  tmdbid : Option Nat
  doubanid : Option String
  vote : Rat
  time : String
  unique : String
deriving Repr, DecidableEq

/-- Python slice `l[-n:]`: the most recent `n` entries (all of them when the
list is shorter). -/
def lastN (n : Nat) (l : List α) : List α := l.drop (l.length - n)

/-- `__is_processed`: a unique key is processed when some history record
carries it. -/
def isProcessed (history : List HistoryRecord) (uniqueKey : String) : Bool :=
  history.any (fun h => h.unique == uniqueKey)

/-- `__save_history`: append the record and persist only the most recent 500
entries (`history[-500:]`). -/
def saveHistory (history : List HistoryRecord) (r : HistoryRecord) : List HistoryRecord :=
  lastN 500 (history ++ [r])

/-- The dict built inside `__save_history` from the item data and the
recognized media info. -/
def mkHistoryRecord (title : Option String) (mi : MediaStub) (doubanId : Option String)
    (vote : Rat) (uniqueFlag : String) (now : String) : HistoryRecord :=
  { title := title
    typeValue := mi.typeValue
    year := mi.year
    poster := mi.poster
    overview := mi.overview
    tmdbid := mi.tmdbId
    doubanid := doubanId
    vote := vote
    time := now
    unique := uniqueFlag }

/-- Result dict of the `delete_history` API endpoint. -/
structure DeleteResult where
  success : Bool
  message : String
deriving Repr, DecidableEq

/-- `delete_history`: reject on API-token mismatch without touching the
store; otherwise drop every record whose unique key equals `key` and save. -/
def deleteHistory (history : List HistoryRecord) (key : String) (apikey : String)
    (apiToken : String) : DeleteResult × List HistoryRecord :=
  if apikey != apiToken then
    ({ success := false, message := "API密钥错误" }, history)
  else
    ({ success := true, message := "删除成功" },
     history.filter (fun h => h.unique != key))

/-- The clear-history administrative action in `__execute_once_operations`:
`save_data('history', [])`. -/
def clearHistory : List HistoryRecord := []

/-- One entry of the JSON `subjects` array of the douban hot-list API, with
the fields the plugin reads; `rate` abstracts the numeric value of the rate
string (`none` when the field is missing). -/
structure DoubanSubject where
  title : Option String
  rate : Option Rat
  id : Option String
  url : Option String
deriving Repr, DecidableEq

/-- A normalized catalog item as appended to `results` in
`__get_douban_data` (html-scraped items carry no url). -/
structure DoubanItem where
  title : Option String
  rate : Option Rat
  id : Option String
  url : Option String
  year : Option String
deriving Repr, DecidableEq

/-- One tuple produced by `pattern.findall` on the page text: captured
(id, title, rating); the rating abstraction is the rational the captured
digit string denotes. -/
structure HtmlMatch where
  id : String
  title : String
  rate : Rat
deriving Repr, DecidableEq

/-- The three views of one HTTP response body that `__get_douban_data` can
take: the `res.json()` parse (subjects list, or a decode error), and the
findall results of each of the two HTML patterns on `res.text`. -/
structure DoubanBody where
  json : Except Unit (List DoubanSubject)
  top250Matches : List HtmlMatch
  chartMatches : List HtmlMatch

/-- Oracle for the `req.get_res` call: the request can raise, return no
response, or return a response with a status code and a body. -/
structure DoubanFetchEnv where
  response : Except Unit (Option (Nat × DoubanBody))

/-- One row of `_rank_config`. -/
structure RankConf where
  name : String
  rtype : String
  url : String
  mtype : MType

/-- The `movie_top250` row of `_rank_config`. -/
def rankConfTop250 : RankConf :=
  { name := "电影Top250", rtype := "html", url := "https://movie.douban.com/top250",
    mtype := .movie }

/-- The `movie_weekly` row of `_rank_config`. -/
def rankConfWeekly : RankConf :=
  { name := "一周口碑榜", rtype := "html", url := "https://movie.douban.com/chart",
    mtype := .movie }

/-- The `movie_hot` row of `_rank_config`. -/
def rankConfMovieHot : RankConf :=
  { name := "热门电影", rtype := "api",
    url := "https://movie.douban.com/j/search_subjects?type=movie&tag=%E7%83%AD%E9%97%A8&sort=recommend&page_limit=20&page_start=0",
    mtype := .movie }

/-- `__get_douban_data`: fetch one list.  Every failure path (request raised,
no response, non-200 status, JSON decode error) yields the empty list; the
api branch maps the subjects into normalized items, the html branch selects
a regex by a marker substring of the configured url. -/
def getDoubanData (conf : RankConf) (env : DoubanFetchEnv) : List DoubanItem :=
  match env.response with
  | .error _ => []
  | .ok none => []
  | .ok (some (status, body)) =>
    if status != 200 then []
    else if conf.rtype == "api" then
      match body.json with
      | .error _ => []
      | .ok subjects =>
        subjects.map (fun sub =>
          { title := sub.title, rate := sub.rate, id := sub.id, url := sub.url,
            year := none })
    else if conf.rtype == "html" then
      if strIn "movie_top250" conf.url then
        body.top250Matches.map (fun m =>
          { id := some m.id, title := some m.title, rate := some m.rate,
            url := none, year := none })
      else if strIn "chart" conf.url then
        body.chartMatches.map (fun m =>
          { id := some m.id, title := some m.title, rate := some m.rate,
            url := none, year := none })
      else []
    else []

/-- `vote = float(item.get('rate') or 0)`: a missing rating defaults to 0. -/
def doubanVote (rate : Option Rat) : Rat := rate.getD 0

/-- The skip test `if self._vote and vote < self._vote` turned into a pass
predicate: an item passes unless the threshold is truthy (nonzero) and the
vote is below it. -/
def doubanPasses (vote threshold : Rat) : Bool :=
  !((threshold != 0) && decide (vote < threshold))

/-- The dedup key `f"doubanrank: {title} (DB:{douban_id})"`. -/
def uniqueFlag (item : DoubanItem) : String :=
  "doubanrank: " ++ pyStr item.title ++ " (DB:" ++ pyStr item.id ++ ")"

/-- Oracle for the backend calls made by `__recognize_media`. -/
structure ResolveEnv where
  recognizeSourceTmdb : Bool
  tmdbLookup : Except Unit (Option Nat)
  recognizeByTmdbId : Except Unit (Option MediaStub)
  recognizeByMeta : Except Unit (Option MediaStub)

/-- `__recognize_media`: step 1 (douban-id to tmdb-id reverse lookup, then
recognition by tmdb id) runs inside a try/except, so a raise there leaves
`mediainfo` unset; when step 1 produced nothing the fallback
`chain.recognize_media(meta)` runs outside any handler. -/
def recognizeMedia (env : ResolveEnv) (doubanId : Option String) :
    Except Unit (Option MediaStub) :=
  let step1 : Option MediaStub :=
    if pyTruthyStr doubanId && env.recognizeSourceTmdb then
      match env.tmdbLookup with
      | .error _ => none
      | .ok none => none
      | .ok (some _) =>
        match env.recognizeByTmdbId with
        | .error _ => none
        | .ok m => m
    else none
  match step1 with
  | some m => .ok (some m)
  | none => env.recognizeByMeta

/-- Oracle for the backend calls made by `__add_subscribe`. -/
structure RegistrarEnv where
  libraryCheck : Except Unit Bool
  subscribeCheck : Except Unit Bool
  addCall : Except Unit Unit

/-- `__add_subscribe`: library existence check, then subscription existence
check, then the add call, all inside one try/except that converts any raise
into a `False` return.  The second component records which backend calls
were issued, in order. -/
def addSubscribe (env : RegistrarEnv) : Bool × List RegCall :=
  match env.libraryCheck with
  | .error _ => (false, [.checkLibrary])
  | .ok true => (false, [.checkLibrary])
  | .ok false =>
    match env.subscribeCheck with
    | .error _ => (false, [.checkLibrary, .checkSubscribe])
    | .ok true => (false, [.checkLibrary, .checkSubscribe])
    | .ok false =>
      match env.addCall with
      | .error _ => (false, [.checkLibrary, .checkSubscribe, .addSub])
      | .ok _ => (true, [.checkLibrary, .checkSubscribe, .addSub])

/-- One entry of `added_list` in `refresh_douban`. -/
structure AddedEntry where
  title : Option String
  typeName : String
  vote : Rat
deriving Repr, DecidableEq

/-- One line of the aggregated notification text. -/
def fmtAddedLine (a : AddedEntry) : String :=
  "• [" ++ a.typeName ++ "] " ++ pyStr a.title ++ " (" ++ toString a.vote ++ "分)"

/-- `__send_notification`: on a non-empty added list, exactly one aggregated
message whose text joins one line per added item. -/
def sendNotification (items : List AddedEntry) : List Notification :=
  if items.isEmpty then []
  else
    [{ kind := .subscribe,
       title := "豆瓣订阅新增 " ++ toString items.length ++ " 部",
       text := String.intercalate "\n" (items.map fmtAddedLine) }]

/-- Per-item oracle bundle: the item together with the resolver and
registrar backend behaviour for it and the timestamp taken if a history
record is written. -/
structure RunItem where
  item : DoubanItem
  resolve : ResolveEnv
  registrar : RegistrarEnv
  now : String

/-- The mutable per-run state threaded through the item loop: the durable
history list and the accumulated `added_list`. -/
structure ItemStep where
  history : List HistoryRecord
  added : List AddedEntry
deriving Repr, DecidableEq

/-- The body of the per-item loop in `refresh_douban` (rating filter, dedup
check, recognition, subscription add, history append); an uncaught raise
from `__recognize_media` surfaces as `Except.error`. -/
def processDoubanItem (voteThreshold : Rat) (catName : String) (ri : RunItem)
    (st : ItemStep) : Except Unit ItemStep :=
  let vote := doubanVote ri.item.rate
  if (voteThreshold != 0) && decide (vote < voteThreshold) then .ok st
  else
    let flag := uniqueFlag ri.item
    if isProcessed st.history flag then .ok st
    else
      match recognizeMedia ri.resolve ri.item.id with
      | .error e => .error e
      | .ok none => .ok st
      | .ok (some mi) =>
        match addSubscribe ri.registrar with
        | (false, _) => .ok st
        | (true, _) =>
          .ok { history := saveHistory st.history
                  (mkHistoryRecord ri.item.title mi ri.item.id vote flag ri.now),
                added := st.added ++ [⟨ri.item.title, catName, vote⟩] }

/-- The item loop of one category; the boolean reports whether an item
raised, in which case the remaining items of the category are skipped and
the state already committed is kept (the raise is then caught by the
per-category handler). -/
def processDoubanItems (voteThreshold : Rat) (catName : String) :
    List RunItem → ItemStep → ItemStep × Bool
  | [], st => (st, false)
  | ri :: rest, st =>
    match processDoubanItem voteThreshold catName ri st with
    | .error _ => (st, true)
    | .ok st' => processDoubanItems voteThreshold catName rest st'

/-- Per-category oracle bundle: the fetch outcome and, for each fetched
item, its backend behaviour. -/
structure CategoryEnv where
  fetch : DoubanFetchEnv
  resolve : DoubanItem → ResolveEnv
  registrar : DoubanItem → RegistrarEnv
  now : DoubanItem → String

/-- One iteration of the category loop of `refresh_douban`: fetch the list
and run the item loop; the surrounding try/except absorbs an item raise, so
the step is total and keeps the partial state. -/
def processDoubanCategory (voteThreshold : Rat) (conf : RankConf) (env : CategoryEnv)
    (st : ItemStep) : ItemStep :=
  let items := getDoubanData conf env.fetch
  let ris := items.map (fun it => RunItem.mk it (env.resolve it) (env.registrar it) (env.now it))
  (processDoubanItems voteThreshold conf.name ris st).1

/-- The category loop of `refresh_douban`. -/
def runDoubanCats (voteThreshold : Rat) (cats : List (RankConf × CategoryEnv))
    (st : ItemStep) : ItemStep :=
  cats.foldl (fun s c => processDoubanCategory voteThreshold c.1 c.2 s) st

/-- `refresh_douban`: run every selected category, then send the single
aggregated notification when notifications are on and something was added. -/
def refreshDouban (voteThreshold : Rat) (notify : Bool)
    (cats : List (RankConf × CategoryEnv)) (history : List HistoryRecord) :
    ItemStep × List Notification :=
  let final := runDoubanCats voteThreshold cats { history := history, added := [] }
  (final,
   if notify && !final.added.isEmpty then sendNotification final.added else [])

end DoubanRank

namespace TmdbTrends

/-- The dedup state of TmdbTrendsSubscribe: the in-memory `_processed_ids`
set (listed by its members) and the lines of the durable
`processed_ids.txt` cache file. -/
structure TState where
  processedIds : List String
  cacheFile : List String
deriving Repr, DecidableEq

/-- Membership test `media_id in self._processed_ids`. -/
def isProcessedId (s : TState) (mediaId : String) : Bool :=
  s.processedIds.contains mediaId

/-- `_save_processed_id`: a no-op when the id is already in the set,
otherwise insert it into the set and append one line to the cache file. -/
def saveProcessedId (s : TState) (mediaId : String) : TState :=
  if s.processedIds.contains mediaId then s
  else { processedIds := s.processedIds ++ [mediaId],
         cacheFile := s.cacheFile ++ [mediaId] }

/-- `_load_processed_ids`: rebuild the in-memory set from the cache-file
lines (ids are written one per line without surrounding whitespace, so
stripping and blank-line filtering are identities here). -/
def loadProcessedIds (file : List String) : TState :=
  { processedIds := file, cacheFile := file }

/-- `clear_cache`: unlink the cache file and empty the set. -/
def clearCache : TState := { processedIds := [], cacheFile := [] }

/-- One entry of the TMDB `results` array, with the fields the plugin
reads; `voteAverage` abstracts the JSON number (`none` when absent). -/
structure TmdbRaw where
  id : Nat
  voteAverage : Option Rat
  title : Option String
  name : Option String
  releaseDate : Option String
  firstAirDate : Option String
deriving Repr, DecidableEq

/-- Oracle for `_get_tmdb_data`: whether an API key is configured, and the
outcome of the `RequestUtils(...).get` call (raise, no response, or a
response with status code and a JSON parse of the `results` array). -/
structure TmdbFetchEnv where
  apiKeyConfigured : Bool
  response : Except Unit (Option (Nat × Except Unit (List TmdbRaw)))

/-- `_get_tmdb_data`: empty list when no API key is configured; on a 200
response return the first `limit` results; every failure path (raise, no
response, non-200 status, JSON parse failure) yields the empty list. -/
def getTmdbData (env : TmdbFetchEnv) (limit : Nat) : List TmdbRaw :=
  if !env.apiKeyConfigured then []
  else
    match env.response with
    | .error _ => []
    | .ok none => []
    | .ok (some (status, json)) =>
      if status == 200 then
        match json with
        | .error _ => []
        | .ok results => results.take limit
      else []

/-- `rating = item.get("vote_average", 0)`: a missing rating defaults
to 0. -/
def tmdbVote (voteAverage : Option Rat) : Rat := voteAverage.getD 0

/-- The skip test `if rating < self._min_rating` turned into a pass
predicate. -/
def tmdbPasses (rating threshold : Rat) : Bool := !decide (rating < threshold)

/-- The dedup key `f"{media_type}_{item.get('id')}"`. -/
def tmdbMediaId (mediaType : String) (item : TmdbRaw) : String :=
  mediaType ++ "_" ++ toString item.id

/-- Oracle for the backend calls the per-item loop of
`check_and_subscribe` makes: recognition, the subscription existence check
and the subscription add call (returning `(sid, msg)`). -/
structure TItemEnv where
  recognize : Except Unit (Option MediaStub)
  subExists : Except Unit Bool
  addResult : Except Unit (Option Nat × String)

/-- What processing one TMDB item produced: the dedup state, the
notifications posted, and the registration calls issued in order. -/
structure TItemOut where
  state : TState
  msgs : List Notification
  trace : List RegCall
deriving Repr, DecidableEq

/-- The per-item success notification posted by `check_and_subscribe`. -/
def tmdbItemMessage (catName : String) (mi : MediaStub) (rating : Rat)
    (item : TmdbRaw) : Notification :=
  { kind := .siteMessage,
    title := "【TMDB趋势订阅】" ++ catName,
    text := "✅ 成功订阅 " ++ mi.titleYear ++ "\n⭐ 评分：" ++ toString rating
      ++ "\n📌 类型：" ++ mi.typeValue ++ "\n🆔 TMDB ID：" ++ toString item.id }

/-- The body of the per-item loop of `check_and_subscribe` (steps 1-6:
rating check, dedup check, recognition, subscription existence check, add,
per-item notification).  No exception handler surrounds these calls, so a
raise from any backend call surfaces as `Except.error`. -/
def processTmdbItem (minRating : Rat) (notify : Bool) (catName mediaType : String)
    (item : TmdbRaw) (env : TItemEnv) (st : TState) : Except Unit TItemOut :=
  let rating := tmdbVote item.voteAverage
  if decide (rating < minRating) then .ok ⟨st, [], []⟩
  else
    let mediaId := tmdbMediaId mediaType item
    if isProcessedId st mediaId then .ok ⟨st, [], []⟩
    else
      match env.recognize with
      | .error e => .error e
      | .ok none => .ok ⟨st, [], []⟩
      | .ok (some mi) =>
        match env.subExists with
        | .error e => .error e
        | .ok true => .ok ⟨saveProcessedId st mediaId, [], [.checkSubscribe]⟩
        | .ok false =>
          match env.addResult with
          | .error e => .error e
          | .ok (some _sid, _msg) =>
            ⟨saveProcessedId st mediaId,
             if notify then [tmdbItemMessage catName mi (tmdbVote item.voteAverage) item]
             else [],
             [.checkSubscribe, .addSub]⟩ |> .ok
          | .ok (none, _msg) => .ok ⟨st, [], [.checkSubscribe, .addSub]⟩

/-- The item loop of one TMDB category: thread the dedup state, accumulate
notifications, and propagate the first raise. -/
def processTmdbItems (minRating : Rat) (notify : Bool) (catName mediaType : String)
    (env : TmdbRaw → TItemEnv) :
    List TmdbRaw → TState → List Notification → Except Unit (TState × List Notification)
  | [], st, ns => .ok (st, ns)
  | it :: rest, st, ns =>
    match processTmdbItem minRating notify catName mediaType it (env it) st with
    | .error e => .error e
    | .ok out =>
      processTmdbItems minRating notify catName mediaType env rest out.state (ns ++ out.msgs)

/-- Per-category oracle bundle of `check_and_subscribe`: the category
configuration row together with the fetch outcome and per-item backend
behaviour. -/
structure TCategory where
  name : String
  enabled : Bool
  count : Int
  mediaType : String
  fetch : TmdbFetchEnv
  itemEnv : TmdbRaw → TItemEnv

/-- One iteration of the category loop of `check_and_subscribe`: skip
disabled categories and non-positive counts, fetch, then run the item
loop.  Raises from the item loop are not caught here. -/
def processTmdbCategory (minRating : Rat) (notify : Bool) (c : TCategory)
    (st : TState) : Except Unit (TState × List Notification) :=
  if !c.enabled then .ok (st, [])
  else if c.count ≤ 0 then .ok (st, [])
  else
    processTmdbItems minRating notify c.name c.mediaType c.itemEnv
      (getTmdbData c.fetch c.count.toNat) st []

/-- The category loop of `check_and_subscribe`: no try/except surrounds it,
so the first raise aborts the remaining categories and propagates. -/
def processTmdbCats (minRating : Rat) (notify : Bool) :
    List TCategory → TState → List Notification → Except Unit (TState × List Notification)
  | [], st, ns => .ok (st, ns)
  | c :: rest, st, ns =>
    match processTmdbCategory minRating notify c st with
    | .error e => .error e
    | .ok (st', ns') => processTmdbCats minRating notify rest st' (ns ++ ns')

/-- `check_and_subscribe`: the whole run over the configured categories. -/
def checkAndSubscribe (minRating : Rat) (notify : Bool) (cats : List TCategory)
    (st : TState) : Except Unit (TState × List Notification) :=
  processTmdbCats minRating notify cats st []

end TmdbTrends

/-! ## Concrete sample data used by closed evaluations -/

/-- A history record with a given unique key (the other fields are
arbitrary concrete values). -/
def mkRec (u : String) : DoubanRank.HistoryRecord :=
  { title := some u, typeValue := "电影", year := some "2024", poster := "p",
    overview := some "o", tmdbid := some 1, doubanid := some "1", vote := 8,
    time := "2026-01-01 00:00:00", unique := u }

/-- A concrete history record. -/
def sampleRec : DoubanRank.HistoryRecord := mkRec "doubanrank: X (DB:1)"

/-- A concrete recognized media identity. -/
def sampleMedia : MediaStub :=
  { title := "X", year := some "2024", typeValue := "电影", mtype := .movie,
    tmdbId := some 7, season := some 1, titleYear := "X (2024)", poster := "p",
    overview := some "o" }

/-- A resolver oracle whose reverse-lookup path is disabled and whose
title/year fallback recognizes the given media. -/
def favResolve (mi : MediaStub) : DoubanRank.ResolveEnv :=
  { recognizeSourceTmdb := false, tmdbLookup := .ok none,
    recognizeByTmdbId := .ok none, recognizeByMeta := .ok (some mi) }

/-- A registrar oracle reporting the media absent from both the library and
the subscription list, with a succeeding add call. -/
def favRegistrar : DoubanRank.RegistrarEnv :=
  { libraryCheck := .ok false, subscribeCheck := .ok false, addCall := .ok () }

/-- Five hundred history records with pairwise distinct unique keys, none of
them equal to the key `k0`. -/
def cexTail : List DoubanRank.HistoryRecord :=
  (List.range 500).map (fun i => mkRec ("z" ++ toString i))

/-- The history obtained by marking `k0` processed and then marking 500
further distinct keys. -/
def cexHistory : List DoubanRank.HistoryRecord :=
  cexTail.foldl DoubanRank.saveHistory (DoubanRank.saveHistory [] (mkRec "k0"))

/-- A concrete TMDB results entry. -/
def cexTItem : TmdbTrends.TmdbRaw :=
  { id := 7, voteAverage := some 9, title := some "X", name := none,
    releaseDate := some "2024-01-01", firstAirDate := none }

/-- A second concrete TMDB results entry. -/
def cexTItem2 : TmdbTrends.TmdbRaw :=
  { id := 8, voteAverage := some 9, title := some "Y", name := none,
    releaseDate := some "2024-02-01", firstAirDate := none }

/-- A TMDB per-item oracle: recognition succeeds, no subscription exists,
the add call succeeds with subscription id 1. -/
def cexTItemEnv : TmdbTrends.TItemEnv :=
  { recognize := .ok (some sampleMedia), subExists := .ok false,
    addResult := .ok (some 1, "") }

/-- A TMDB per-item oracle whose recognition call raises. -/
def cexTItemEnvRaise : TmdbTrends.TItemEnv :=
  { recognize := .error (), subExists := .ok false, addResult := .ok (some 1, "") }

/-- A TMDB fetch oracle: API key configured, 200 response whose results
array parses to the two sample entries. -/
def cexTFetch : TmdbTrends.TmdbFetchEnv :=
  { apiKeyConfigured := true, response := .ok (some (200, .ok [cexTItem, cexTItem2])) }

/-- A TMDB category whose two fetched items both subscribe successfully. -/
def cexC4cat : TmdbTrends.TCategory :=
  { name := "热门电影", enabled := true, count := 5, mediaType := "movie",
    fetch := cexTFetch, itemEnv := fun _ => cexTItemEnv }

/-- The notifications of the C4 concrete run (empty if the run raised). -/
def cexC4notifs : List Notification :=
  match TmdbTrends.checkAndSubscribe 0 true [cexC4cat] ⟨[], []⟩ with
  | .ok p => p.2
  | .error _ => []

/-- A TMDB category whose first fetched item raises during recognition. -/
def cexBadCat : TmdbTrends.TCategory :=
  { name := "热门电影", enabled := true, count := 5, mediaType := "movie",
    fetch := cexTFetch, itemEnv := fun _ => cexTItemEnvRaise }

/-- A resolver oracle for an item carrying an external id: the reverse
lookup raises and the title/year fallback raises as well. -/
def cexResolveEnv : DoubanRank.ResolveEnv :=
  { recognizeSourceTmdb := true, tmdbLookup := .error (),
    recognizeByTmdbId := .ok none, recognizeByMeta := .error () }

/-- A 200 response for the Top250 page whose text matches the Top250
pattern (one captured film) and not the weekly-chart pattern. -/
def cexTop250Body : DoubanRank.DoubanBody :=
  { json := .error (), top250Matches := [{ id := "1292052", title := "肖申克的救赎", rate := 9 }],
    chartMatches := [] }

/-- The fetch oracle delivering `cexTop250Body` with status 200. -/
def cexTop250Env : DoubanRank.DoubanFetchEnv :=
  { response := .ok (some (200, cexTop250Body)) }

/-- A 200 response for the weekly-chart page whose text matches the chart
pattern (one captured film). -/
def cexChartBody : DoubanRank.DoubanBody :=
  { json := .error (), top250Matches := [],
    chartMatches := [{ id := "35674355", title := "某电影", rate := 8 }] }

/-- The fetch oracle delivering `cexChartBody` with status 200. -/
def cexChartEnv : DoubanRank.DoubanFetchEnv :=
  { response := .ok (some (200, cexChartBody)) }

/-- A concrete normalized douban catalog item. -/
def cexDoubanItemGood : DoubanRank.DoubanItem :=
  { title := some "X", rate := some 8, id := some "1", url := some "u", year := none }

/-- A douban API fetch oracle: 200 response whose JSON parses to one
subject. -/
def cexDoubanFetchApi : DoubanRank.DoubanFetchEnv :=
  { response := .ok (some (200,
      { json := .ok [{ title := some "X", rate := some 8, id := some "1", url := some "u" }],
        top250Matches := [], chartMatches := [] })) }

/-- A douban category oracle whose single fetched item resolves and
subscribes successfully. -/
def cexDoubanCatEnv : DoubanRank.CategoryEnv :=
  { fetch := cexDoubanFetchApi, resolve := fun _ => favResolve sampleMedia,
    registrar := fun _ => favRegistrar, now := fun _ => "2026-01-01 00:00:00" }

/-- A douban per-item bundle whose resolver raises in both steps. -/
def cexRunItemRaise : DoubanRank.RunItem :=
  { item := cexDoubanItemGood, resolve := cexResolveEnv,
    registrar := favRegistrar, now := "2026-01-01 00:00:00" }

/-- The aggregated notification the concrete douban run posts. -/
def cexAggNote : Notification :=
  { kind := .subscribe, title := "豆瓣订阅新增 " ++ toString 1 ++ " 部",
    text := DoubanRank.fmtAddedLine ⟨some "X", "热门电影", 8⟩ }

/-! ## Helper lemmas -/

namespace DoubanRank

theorem lastN_of_le {α : Type} {l : List α} {n : Nat} (h : l.length ≤ n) :
    lastN n l = l := by
  simp [lastN, Nat.sub_eq_zero_of_le h]

theorem lastN_lastN_append {α : Type} (l l₂ : List α) (m : Nat) :
    lastN m (lastN m l ++ l₂) = lastN m (l ++ l₂) := by
  unfold lastN
  rw [← List.drop_append_of_le_length (by omega : l.length - m ≤ l.length),
    List.drop_drop]
  congr 1
  simp only [List.length_drop, List.length_append]
  omega

theorem saveHistory_length_le (s : List HistoryRecord) (r : HistoryRecord) :
    (saveHistory s r).length ≤ 500 := by
  simp only [saveHistory, lastN, List.length_drop, List.length_append,
    List.length_cons]
  omega

theorem foldl_saveHistory (rs : List HistoryRecord) :
    ∀ (s : List HistoryRecord), s.length ≤ 500 →
      rs.foldl saveHistory s = lastN 500 (s ++ rs) := by
  induction rs with
  | nil => intro s hs; simp [lastN_of_le hs]
  | cons r rs ih =>
    intro s hs
    calc (r :: rs).foldl saveHistory s = rs.foldl saveHistory (saveHistory s r) := rfl
      _ = lastN 500 (saveHistory s r ++ rs) := ih _ (saveHistory_length_le s r)
      _ = lastN 500 (lastN 500 (s ++ [r]) ++ rs) := rfl
      _ = lastN 500 ((s ++ [r]) ++ rs) := lastN_lastN_append (s ++ [r]) rs 500
      _ = lastN 500 (s ++ r :: rs) := by simp

end DoubanRank

/-! ## C8: history log bounded to the most recent 500 entries -/

/-- C8: for every state of the history log and every append performed on a
successful subscription, the stored log keeps at most 500 records, is a
suffix of the appended log (so only the oldest entries are evicted), is the
plain append while fewer than 500 records are stored, and holds exactly 500
records once the log is full. -/
theorem spec_C8_history_bound :
    (∀ (h : List DoubanRank.HistoryRecord) r,
        (DoubanRank.saveHistory h r).length ≤ 500) ∧
    (∀ (h : List DoubanRank.HistoryRecord) r,
        (DoubanRank.saveHistory h r).IsSuffix (h ++ [r])) ∧
    (∀ (h : List DoubanRank.HistoryRecord) r, h.length < 500 →
        DoubanRank.saveHistory h r = h ++ [r]) ∧
    (∀ (h : List DoubanRank.HistoryRecord) r, 500 ≤ h.length →
        (DoubanRank.saveHistory h r).length = 500) := by
  refine ⟨DoubanRank.saveHistory_length_le, fun h r => List.drop_suffix _ _,
    fun h r hlt => ?_, fun h r hge => ?_⟩
  · exact DoubanRank.lastN_of_le (by simp; omega)
  · simp only [DoubanRank.saveHistory, DoubanRank.lastN, List.length_drop,
      List.length_append, List.length_cons]
    omega

/-- C8 witness: appending to a log shorter than 500 is the plain append. -/
theorem spec_C8_history_bound_witness :
    DoubanRank.saveHistory [] sampleRec = [] ++ [sampleRec] :=
  spec_C8_history_bound.2.2.1 [] sampleRec (by decide)


/-! ## C9: delete-history endpoint authentication -/

/-- C9: a call to delete_history with a credential different from the
shared API token returns the structured failure result and leaves the
history store unchanged; a matching credential returns success and removes
exactly the records whose unique key equals the given key. -/
theorem spec_C9_delete_auth :
    (∀ (hist : List DoubanRank.HistoryRecord) key apikey token, apikey ≠ token →
        DoubanRank.deleteHistory hist key apikey token =
          ({ success := false, message := "API密钥错误" }, hist)) ∧
    (∀ (hist : List DoubanRank.HistoryRecord) key token,
        (DoubanRank.deleteHistory hist key token token).1 =
          { success := true, message := "删除成功" } ∧
        (DoubanRank.deleteHistory hist key token token).2 =
          hist.filter (fun h => h.unique != key)) ∧
    (∀ (hist : List DoubanRank.HistoryRecord) key token h,
        h ∈ (DoubanRank.deleteHistory hist key token token).2 ↔
          h ∈ hist ∧ h.unique ≠ key) := by
  refine ⟨fun hist key apikey token hne => ?_, fun hist key token => ?_,
    fun hist key token h => ?_⟩
  · simp [DoubanRank.deleteHistory, hne]
  · simp [DoubanRank.deleteHistory]
  · simp [DoubanRank.deleteHistory, List.mem_filter]

/-- C9 witness: a concrete wrong-credential call is rejected without
mutation. -/
theorem spec_C9_delete_auth_witness :
    DoubanRank.deleteHistory [sampleRec] "doubanrank: X (DB:1)" "wrong" "token" =
      ({ success := false, message := "API密钥错误" }, [sampleRec]) :=
  spec_C9_delete_auth.1 [sampleRec] "doubanrank: X (DB:1)" "wrong" "token" (by decide)

/-! ## C10: the dedup store and the history log are the same list -/

/-- C10: is_processed reads the same stored list that delete_history and
the clear action mutate: after an authorized delete of a key the key is no
longer processed, after a clear no key is processed, and an item whose key
is not processed flows past the dedup check and (with a recognizing
resolver and an absent-everywhere registrar) is registered again and
re-appended to the history. -/
theorem spec_C10_dedup_same_store :
    (∀ (hist : List DoubanRank.HistoryRecord) key token,
        DoubanRank.isProcessed (DoubanRank.deleteHistory hist key token token).2 key
          = false) ∧
    (∀ key, DoubanRank.isProcessed DoubanRank.clearHistory key = false) ∧
    (∀ (hist : List DoubanRank.HistoryRecord) cn (item : DoubanRank.DoubanItem)
        (mi : MediaStub) now,
        DoubanRank.isProcessed hist (DoubanRank.uniqueFlag item) = false →
        DoubanRank.processDoubanItem 0 cn
            { item := item, resolve := favResolve mi, registrar := favRegistrar,
              now := now }
            { history := hist, added := [] } =
          .ok { history := DoubanRank.saveHistory hist
                  (DoubanRank.mkHistoryRecord item.title mi item.id
                    (DoubanRank.doubanVote item.rate) (DoubanRank.uniqueFlag item) now),
                added := [⟨item.title, cn, DoubanRank.doubanVote item.rate⟩] }) := by
  refine ⟨fun hist key token => ?_, fun key => ?_, fun hist cn item mi now hnp => ?_⟩
  · simp only [DoubanRank.deleteHistory, bne_self_eq_false, Bool.false_eq_true,
      if_false, DoubanRank.isProcessed]
    rw [List.any_eq_false]
    intro h hmem
    rcases List.mem_filter.mp hmem with ⟨-, hne⟩
    simpa using hne
  · rfl
  · simp only [DoubanRank.processDoubanItem, bne_self_eq_false, Bool.false_and,
      Bool.false_eq_true, if_false, hnp,
      DoubanRank.recognizeMedia, favResolve, Bool.and_false, favRegistrar,
      DoubanRank.addSubscribe, List.nil_append]

/-- C10 witness: after deleting a concrete key with the correct token, the
key is reported unprocessed, and a concrete unprocessed item is registered
and re-appended. -/
theorem spec_C10_dedup_same_store_witness :
    DoubanRank.isProcessed
      (DoubanRank.deleteHistory [sampleRec] "doubanrank: X (DB:1)" "t" "t").2
      "doubanrank: X (DB:1)" = false ∧
    DoubanRank.processDoubanItem 0 "热门电影"
        { item := { title := some "X", rate := some 8, id := some "1",
                    url := none, year := none },
          resolve := favResolve sampleMedia, registrar := favRegistrar,
          now := "2026-01-01 00:00:00" }
        { history := [], added := [] } =
      .ok { history := DoubanRank.saveHistory []
              (DoubanRank.mkHistoryRecord (some "X") sampleMedia (some "1") 8
                "doubanrank: X (DB:1)" "2026-01-01 00:00:00"),
            added := [⟨some "X", "热门电影", 8⟩] } := by
  constructor
  · exact spec_C10_dedup_same_store.1 [sampleRec] "doubanrank: X (DB:1)" "t"
  · exact spec_C10_dedup_same_store.2.2 []
      "热门电影"
      { title := some "X", rate := some 8, id := some "1", url := none, year := none }
      sampleMedia "2026-01-01 00:00:00" (by decide)

/-! ## C3: rating filter -/

/-- C3: in both plugins the rating filter passes an item exactly when its
rating is at least the threshold (ratings are non-negative); a threshold of
zero passes every item; a missing rating defaults to 0 and therefore fails
every positive threshold. -/
theorem spec_C3_rating_filter :
    (∀ vote threshold : Rat, 0 ≤ vote →
        (DoubanRank.doubanPasses vote threshold = true ↔ threshold ≤ vote)) ∧
    (∀ rating threshold : Rat,
        TmdbTrends.tmdbPasses rating threshold = true ↔ threshold ≤ rating) ∧
    (∀ vote : Rat, DoubanRank.doubanPasses vote 0 = true) ∧
    (∀ rating : Rat, 0 ≤ rating → TmdbTrends.tmdbPasses rating 0 = true) ∧
    (∀ threshold : Rat, 0 < threshold →
        DoubanRank.doubanPasses (DoubanRank.doubanVote none) threshold = false ∧
        TmdbTrends.tmdbPasses (TmdbTrends.tmdbVote none) threshold = false) := by
  refine ⟨fun v t hv => ?_, fun r t => ?_, fun v => ?_, fun r hr => ?_,
    fun t ht => ⟨?_, ?_⟩⟩
  · rcases eq_or_ne t 0 with rfl | hne
    · simpa [DoubanRank.doubanPasses] using hv
    · simp [DoubanRank.doubanPasses, hne, not_lt]
  · simp [TmdbTrends.tmdbPasses, not_lt]
  · simp [DoubanRank.doubanPasses]
  · simp [TmdbTrends.tmdbPasses, not_lt, hr]
  · simp [DoubanRank.doubanPasses, DoubanRank.doubanVote, ht, ht.ne']
  · simp [TmdbTrends.tmdbPasses, TmdbTrends.tmdbVote, ht]

/-- C3 witness: concrete rating 8 against threshold 7 passes both filters,
and a missing rating fails threshold 7 in both. -/
theorem spec_C3_rating_filter_witness :
    DoubanRank.doubanPasses 8 7 = true ∧
    TmdbTrends.tmdbPasses 8 7 = true ∧
    DoubanRank.doubanPasses (DoubanRank.doubanVote none) 7 = false ∧
    TmdbTrends.tmdbPasses (TmdbTrends.tmdbVote none) 7 = false := by
  refine ⟨(spec_C3_rating_filter.1 8 7 (by decide)).mpr (by decide),
    (spec_C3_rating_filter.2.1 8 7).mpr (by decide),
    (spec_C3_rating_filter.2.2.2.2 7 (by decide)).1,
    (spec_C3_rating_filter.2.2.2.2 7 (by decide)).2⟩

/-! ## C1: durability of the processed-key set -/

namespace DoubanRank

theorem lastN_lastN {α : Type} (a b : Nat) (l : List α) :
    lastN a (lastN b l) = lastN (min a b) l := by
  unfold lastN
  rw [List.drop_drop]
  congr 1
  simp only [List.length_drop]
  omega

theorem lastN_zero {α : Type} (l : List α) : lastN 0 l = [] := by
  simp [lastN]

theorem lastN_append_one {α : Type} (s : List α) (r : α) (k : Nat) :
    lastN (k + 1) (s ++ [r]) = lastN k s ++ [r] := by
  unfold lastN
  rw [List.length_append, List.length_cons, List.length_nil]
  rw [show s.length + (0 + 1) - (k + 1) = s.length - k by omega]
  exact List.drop_append_of_le_length (by omega)

theorem lastN_saveHistory_step (s : List HistoryRecord) (r : HistoryRecord)
    (k : Nat) (hk : k + 1 ≤ 500) :
    lastN (k + 1) (saveHistory s r) = lastN k s ++ [r] := by
  show lastN (k + 1) (lastN 500 (s ++ [r])) = lastN k s ++ [r]
  rw [lastN_lastN, Nat.min_eq_left hk, lastN_append_one]

theorem any_of_lastN_any (s : List HistoryRecord) (k : Nat)
    (p : HistoryRecord → Bool) (h : (lastN k s).any p = true) : s.any p = true := by
  rcases List.any_eq_true.mp h with ⟨x, hmem, hx⟩
  exact List.any_eq_true.mpr ⟨x, List.mem_of_mem_drop hmem, hx⟩

theorem isProcessed_foldl_saveHistory (key : String) (rs : List HistoryRecord) :
    ∀ (s : List HistoryRecord) (k : Nat),
      (lastN k s).any (fun h => h.unique == key) = true → k + rs.length ≤ 500 →
      isProcessed (rs.foldl saveHistory s) key = true := by
  induction rs with
  | nil => intro s k hk hle; exact any_of_lastN_any s k _ hk
  | cons r rs ih =>
    intro s k hk hle
    simp only [List.length_cons] at hle
    refine ih (saveHistory s r) (k + 1) ?_ (by omega)
    rw [lastN_saveHistory_step s r k (by omega), List.any_append, hk, Bool.true_or]

theorem isProcessed_saveHistory_self (h : List HistoryRecord) (r : HistoryRecord) :
    isProcessed (saveHistory h r) r.unique = true := by
  have h1 : (lastN 1 (saveHistory h r)).any (fun x => x.unique == r.unique) = true := by
    rw [show (1 : Nat) = 0 + 1 from rfl, lastN_saveHistory_step h r 0 (by omega),
      lastN_zero]
    simp
  exact any_of_lastN_any _ 1 _ h1

end DoubanRank

namespace TmdbTrends

theorem isProcessedId_saveProcessedId_self (s : TState) (m : String) :
    isProcessedId (saveProcessedId s m) m = true := by
  by_cases hc : m ∈ s.processedIds <;>
    simp [isProcessedId, saveProcessedId, hc]

theorem isProcessedId_saveProcessedId_mono (s : TState) (m m' : String)
    (h : isProcessedId s m = true) : isProcessedId (saveProcessedId s m') m = true := by
  by_cases hc : m' ∈ s.processedIds <;>
    simp_all [isProcessedId, saveProcessedId]

theorem isProcessedId_foldl_mono (m : String) (ms : List String) :
    ∀ (s : TState), isProcessedId s m = true →
      isProcessedId (ms.foldl saveProcessedId s) m = true := by
  induction ms with
  | nil => exact fun s h => h
  | cons m' ms ih =>
    exact fun s h => ih _ (isProcessedId_saveProcessedId_mono s m m' h)

theorem cacheFile_saveProcessedId (s : TState) (m : String)
    (hsync : ∀ x ∈ s.processedIds, x ∈ s.cacheFile) :
    m ∈ (saveProcessedId s m).cacheFile := by
  by_cases hc : m ∈ s.processedIds
  · simpa [saveProcessedId, hc] using hsync m hc
  · simp [saveProcessedId, hc]

end TmdbTrends

/-- A key formed by appending to the one-character string z never equals
the key k0. -/
theorem z_append_ne (s : String) : ("z" ++ s) ≠ "k0" := by
  intro h
  cases s with
  | mk data =>
    have h2 := congrArg String.data h
    simp only [String.data_append] at h2
    have h3 : 'z' :: data = ['k', '0'] := h2
    simp at h3

theorem cexTail_length : cexTail.length = 500 := by
  rw [cexTail, List.length_map, List.length_range]

theorem cexHistory_eq : cexHistory = cexTail := by
  unfold cexHistory
  rw [DoubanRank.foldl_saveHistory cexTail (DoubanRank.saveHistory [] (mkRec "k0"))
    (DoubanRank.saveHistory_length_le [] (mkRec "k0"))]
  rw [show DoubanRank.saveHistory [] (mkRec "k0") = [mkRec "k0"] from rfl]
  show DoubanRank.lastN 500 (mkRec "k0" :: cexTail) = cexTail
  unfold DoubanRank.lastN
  rw [List.length_cons, cexTail_length]
  show List.drop 1 (mkRec "k0" :: cexTail) = cexTail
  rw [List.drop_succ_cons, List.drop_zero]

/-- C1 counterexample: in DoubanRank, marking the key k0 processed makes
is_processed true, but after 500 further keys are marked (each a successful
subscription appending its own history record) the 500-entry bound of
save_history has evicted the record carrying k0 and is_processed k0 is
false again, with no clear ever invoked — so the claim that a marked key
stays processed regardless of how many further keys are marked fails on the
code. -/
theorem spec_C1_counterexample :
    DoubanRank.isProcessed (DoubanRank.saveHistory [] (mkRec "k0")) "k0" = true ∧
    DoubanRank.isProcessed cexHistory "k0" = false := by
  constructor
  · exact DoubanRank.isProcessed_saveHistory_self [] (mkRec "k0")
  · rw [cexHistory_eq]
    rw [show DoubanRank.isProcessed cexTail "k0"
        = cexTail.any (fun x => x.unique == "k0") from rfl]
    rw [List.any_eq_false]
    intro x hx
    rw [cexTail] at hx
    rcases List.mem_map.mp hx with ⟨i, -, rfl⟩
    simp only [mkRec, beq_iff_eq]
    exact z_append_ne (toString i)

/-- C1 amended: once markProcessed(key) has completed, isProcessed(key) is
true immediately, and in DoubanRank it stays true as long as fewer than 500
further history records have been appended (the 500-entry bound can evict
it afterwards); in TmdbTrendsSubscribe it stays true after any number of
further marks, and also after a reload of the durable cache file provided
the in-memory set is in sync with the file (every member written to it), as
every state loaded from the file is. -/
theorem spec_C1_amended :
    (∀ (h : List DoubanRank.HistoryRecord) r,
        DoubanRank.isProcessed (DoubanRank.saveHistory h r) r.unique = true) ∧
    (∀ (h : List DoubanRank.HistoryRecord) (r : DoubanRank.HistoryRecord)
        (rs : List DoubanRank.HistoryRecord), rs.length < 500 →
        DoubanRank.isProcessed
          (rs.foldl DoubanRank.saveHistory (DoubanRank.saveHistory h r)) r.unique
          = true) ∧
    (∀ (s : TmdbTrends.TState) m,
        TmdbTrends.isProcessedId (TmdbTrends.saveProcessedId s m) m = true) ∧
    (∀ (s : TmdbTrends.TState) (m : String) (ms : List String),
        TmdbTrends.isProcessedId
          (ms.foldl TmdbTrends.saveProcessedId (TmdbTrends.saveProcessedId s m)) m
          = true) ∧
    (∀ (s : TmdbTrends.TState) m, (∀ x ∈ s.processedIds, x ∈ s.cacheFile) →
        TmdbTrends.isProcessedId
          (TmdbTrends.loadProcessedIds (TmdbTrends.saveProcessedId s m).cacheFile) m
          = true) := by
  refine ⟨DoubanRank.isProcessed_saveHistory_self, fun h r rs hlen => ?_,
    TmdbTrends.isProcessedId_saveProcessedId_self, fun s m ms => ?_,
    fun s m hsync => ?_⟩
  · refine DoubanRank.isProcessed_foldl_saveHistory r.unique rs
      (DoubanRank.saveHistory h r) 1 ?_ (by omega)
    rw [show (1 : Nat) = 0 + 1 from rfl,
      DoubanRank.lastN_saveHistory_step h r 0 (by omega), DoubanRank.lastN_zero]
    simp
  · exact TmdbTrends.isProcessedId_foldl_mono m ms _
      (TmdbTrends.isProcessedId_saveProcessedId_self s m)
  · have hm := TmdbTrends.cacheFile_saveProcessedId s m hsync
    simpa [TmdbTrends.loadProcessedIds, TmdbTrends.isProcessedId] using hm

/-- C1 witness: concrete instances of the amended statement — one further
append keeps a marked key processed, and a marked TMDB id survives a reload
of the cache file. -/
theorem spec_C1_amended_witness :
    DoubanRank.isProcessed
      (List.foldl DoubanRank.saveHistory
        (DoubanRank.saveHistory [] (mkRec "k0")) [mkRec "z1"]) "k0" = true ∧
    TmdbTrends.isProcessedId
      (TmdbTrends.loadProcessedIds
        (TmdbTrends.saveProcessedId ⟨[], []⟩ "movie_7").cacheFile) "movie_7" = true := by
  constructor
  · exact spec_C1_amended.2.1 [] (mkRec "k0") [mkRec "z1"] (by decide)
  · exact spec_C1_amended.2.2.2.2 ⟨[], []⟩ "movie_7" (by simp)

/-! ## C2: registration existence checks -/

/-- C2 counterexample: in TmdbTrendsSubscribe, a resolved item absent from
the subscription list is registered after the subscription-existence check
alone — the registration trace contains the add call but no
library-existence check, so the claim that every registration performs two
existence checks (library first) fails on the code. -/
theorem spec_C2_counterexample :
    TmdbTrends.processTmdbItem 0 false "热门电影" "movie" cexTItem cexTItemEnv
        ⟨[], []⟩ =
      .ok ⟨⟨["movie_7"], ["movie_7"]⟩, [], [RegCall.checkSubscribe, RegCall.addSub]⟩ ∧
    RegCall.checkLibrary ∉ [RegCall.checkSubscribe, RegCall.addSub] := by
  exact ⟨rfl, by decide⟩

/-- C2 amended: in DoubanRank, registration performs the library-existence
check first and the subscription-existence check second, the add call is
issued exactly when both checks returned negative, a positive library check
short-circuits to added=false with only that one check performed, and
added=true requires both negative checks plus a non-raising add call; in
TmdbTrendsSubscribe only the subscription-existence check precedes the add
call — no library-existence check is ever performed. -/
theorem spec_C2_amended :
    (∀ env : DoubanRank.RegistrarEnv,
        (env.libraryCheck = .ok true →
          DoubanRank.addSubscribe env = (false, [RegCall.checkLibrary])) ∧
        (RegCall.addSub ∈ (DoubanRank.addSubscribe env).2 ↔
          env.libraryCheck = .ok false ∧ env.subscribeCheck = .ok false) ∧
        (RegCall.checkSubscribe ∈ (DoubanRank.addSubscribe env).2 →
          env.libraryCheck = .ok false) ∧
        ((DoubanRank.addSubscribe env).1 = true →
          env.libraryCheck = .ok false ∧ env.subscribeCheck = .ok false ∧
          env.addCall = .ok ())) ∧
    (∀ (minRating : Rat) (notify : Bool) (cn mt : String)
        (item : TmdbTrends.TmdbRaw) (e : TmdbTrends.TItemEnv)
        (st : TmdbTrends.TState) (out : TmdbTrends.TItemOut),
        TmdbTrends.processTmdbItem minRating notify cn mt item e st = .ok out →
        RegCall.checkLibrary ∉ out.trace) := by
  constructor
  · intro env
    obtain ⟨lc, sc, ac⟩ := env
    rcases lc with ⟨⟩ | b
    · refine ⟨?_, ?_, ?_, ?_⟩ <;> simp [DoubanRank.addSubscribe]
    · rcases b with _ | _
      · rcases sc with ⟨⟩ | b'
        · refine ⟨?_, ?_, ?_, ?_⟩ <;> simp [DoubanRank.addSubscribe]
        · rcases b' with _ | _
          · rcases ac with ⟨⟩ | ⟨⟩
            · refine ⟨?_, ?_, ?_, ?_⟩ <;> simp [DoubanRank.addSubscribe]
            · refine ⟨?_, ?_, ?_, ?_⟩ <;> simp [DoubanRank.addSubscribe]
          · refine ⟨?_, ?_, ?_, ?_⟩ <;> simp [DoubanRank.addSubscribe]
      · refine ⟨?_, ?_, ?_, ?_⟩ <;> simp [DoubanRank.addSubscribe]
  · intro minRating notify cn mt item e st out hok
    obtain ⟨os, om, ot⟩ := out
    show RegCall.checkLibrary ∉ ot
    by_cases h1 : TmdbTrends.tmdbVote item.voteAverage < minRating
    · simp [TmdbTrends.processTmdbItem, h1] at hok
      obtain ⟨-, -, h3⟩ := hok
      subst h3
      simp
    · by_cases h2 : TmdbTrends.isProcessedId st (TmdbTrends.tmdbMediaId mt item) = true
      · simp [TmdbTrends.processTmdbItem, h1, h2] at hok
        obtain ⟨-, -, h3⟩ := hok
        subst h3
        simp
      · rcases hr : e.recognize with ⟨⟩ | mo
        · simp [TmdbTrends.processTmdbItem, h1, h2, hr] at hok
        · rcases mo with _ | mi
          · simp [TmdbTrends.processTmdbItem, h1, h2, hr] at hok
            obtain ⟨-, -, h3⟩ := hok
            subst h3
            simp
          · rcases hs : e.subExists with ⟨⟩ | b
            · simp [TmdbTrends.processTmdbItem, h1, h2, hr, hs] at hok
            · rcases b with _ | _
              · rcases ha : e.addResult with ⟨⟩ | ⟨sid, msg⟩
                · simp [TmdbTrends.processTmdbItem, h1, h2, hr, hs, ha] at hok
                · rcases sid with _ | n
                  · simp [TmdbTrends.processTmdbItem, h1, h2, hr, hs, ha] at hok
                    obtain ⟨-, -, h3⟩ := hok
                    subst h3
                    simp
                  · simp [TmdbTrends.processTmdbItem, h1, h2, hr, hs, ha] at hok
                    obtain ⟨-, -, h3⟩ := hok
                    subst h3
                    simp
              · simp [TmdbTrends.processTmdbItem, h1, h2, hr, hs] at hok
                obtain ⟨-, -, h3⟩ := hok
                subst h3
                simp

/-- C2 witness: a concrete positive library check short-circuits the
DoubanRank registrar, and the concrete TMDB registration of the C2
counterexample indeed performed no library check. -/
theorem spec_C2_amended_witness :
    DoubanRank.addSubscribe ⟨.ok true, .ok false, .ok ()⟩ =
      (false, [RegCall.checkLibrary]) ∧
    RegCall.checkLibrary ∉ ([RegCall.checkSubscribe, RegCall.addSub] : List RegCall) := by
  constructor
  · exact (spec_C2_amended.1 ⟨.ok true, .ok false, .ok ()⟩).1 rfl
  · exact spec_C2_amended.2 0 false "热门电影" "movie" cexTItem cexTItemEnv ⟨[], []⟩
      ⟨⟨["movie_7"], ["movie_7"]⟩, [], [RegCall.checkSubscribe, RegCall.addSub]⟩ rfl

/-! ## C5: identity-resolution fallback and exception behaviour -/

/-- C5 counterexample: for an item carrying the external id 123, the
reverse-lookup step raises and is caught, the fallback recognition call
runs — but the fallback call itself raises, and `__recognize_media`
propagates that raise to its caller, so the claim that the resolve
invocation never raises fails on the code. -/
theorem spec_C5_counterexample :
    DoubanRank.recognizeMedia cexResolveEnv (some "123") = .error () := rfl

/-- C5 amended: a raise or an empty result in the reverse-lookup step is
caught and the title/year fallback still runs and determines the result;
the resolve invocation returns a media identity or null whenever the
fallback backend call itself returns normally, but a raise from the
fallback call propagates to the caller (where the per-category handler of
refresh_douban absorbs it). -/
theorem spec_C5_amended :
    (∀ (env : DoubanRank.ResolveEnv) (doubanId : Option String)
        (r : Option MediaStub), env.recognizeByMeta = .ok r →
        ∃ m, DoubanRank.recognizeMedia env doubanId = .ok m) ∧
    (∀ (env : DoubanRank.ResolveEnv) (doubanId : Option String),
        env.tmdbLookup = .error () →
        DoubanRank.recognizeMedia env doubanId = env.recognizeByMeta) ∧
    (∀ (env : DoubanRank.ResolveEnv) (doubanId : Option String),
        env.tmdbLookup = .ok none →
        DoubanRank.recognizeMedia env doubanId = env.recognizeByMeta) ∧
    (∀ (env : DoubanRank.ResolveEnv) (doubanId : Option String),
        env.recognizeByTmdbId = .error () →
        DoubanRank.recognizeMedia env doubanId = env.recognizeByMeta) := by
  refine ⟨fun env doubanId r hok => ?_, fun env doubanId hl => ?_,
    fun env doubanId hl => ?_, fun env doubanId hr => ?_⟩
  · unfold DoubanRank.recognizeMedia
    by_cases hc : pyTruthyStr doubanId && env.recognizeSourceTmdb
    · simp only [hc, if_true]
      rcases hl : env.tmdbLookup with ⟨⟩ | mo
      · exact ⟨r, hok⟩
      · rcases mo with _ | n
        · exact ⟨r, hok⟩
        · rcases hr : env.recognizeByTmdbId with ⟨⟩ | m
          · exact ⟨r, hok⟩
          · rcases m with _ | mi
            · exact ⟨r, hok⟩
            · exact ⟨some mi, rfl⟩
    · simp only [hc, if_false]
      exact ⟨r, hok⟩
  · unfold DoubanRank.recognizeMedia
    by_cases hc : pyTruthyStr doubanId && env.recognizeSourceTmdb <;>
      simp [hc, hl]
  · unfold DoubanRank.recognizeMedia
    by_cases hc : pyTruthyStr doubanId && env.recognizeSourceTmdb <;>
      simp [hc, hl]
  · unfold DoubanRank.recognizeMedia
    by_cases hc : pyTruthyStr doubanId && env.recognizeSourceTmdb
    · rcases hl : env.tmdbLookup with ⟨⟩ | mo
      · simp [hc, hl]
      · rcases mo with _ | n <;> simp [hc, hl, hr]
    · simp [hc]

/-- C5 witness: with a raising reverse lookup and a fallback that
recognizes the sample media, the resolve invocation returns that media. -/
theorem spec_C5_amended_witness :
    DoubanRank.recognizeMedia
      { recognizeSourceTmdb := true, tmdbLookup := .error (),
        recognizeByTmdbId := .ok none, recognizeByMeta := .ok (some sampleMedia) }
      (some "123") = .ok (some sampleMedia) :=
  spec_C5_amended.2.1
    { recognizeSourceTmdb := true, tmdbLookup := .error (),
      recognizeByTmdbId := .ok none, recognizeByMeta := .ok (some sampleMedia) }
    (some "123") rfl

/-! ## C6: source fetch soft failure and normalization -/

/-- C6: the fetchers absorb failures and return an empty list, but the
claim that a 200 response with a parsable payload yields the normalized
catalog items is violated by the code for the movie_top250 category: the
html branch selects its pattern by testing the substring movie_top250
against the configured url https://movie.douban.com/top250, which does not
contain it (nor the chart marker), so a matching Top250 page still yields
the empty list; the sibling weekly-chart category normalizes its matches
as specified. -/
theorem spec_C6_top250_dead_branch :
    DoubanRank.getDoubanData DoubanRank.rankConfTop250 cexTop250Env = [] ∧
    strIn "movie_top250" DoubanRank.rankConfTop250.url = false ∧
    strIn "chart" DoubanRank.rankConfTop250.url = false ∧
    DoubanRank.getDoubanData DoubanRank.rankConfWeekly cexChartEnv =
      [{ id := some "35674355", title := some "某电影", rate := some 8,
         url := none, year := none }] :=
  ⟨rfl, rfl, rfl, rfl⟩

/-! ## C4: notification behaviour -/

namespace TmdbTrends

theorem processTmdbItem_cases (minRating : Rat) (notify : Bool) (cn mt : String)
    (item : TmdbRaw) (e : TItemEnv) (st : TState) (out : TItemOut)
    (hok : processTmdbItem minRating notify cn mt item e st = .ok out) :
    out = ⟨st, [], []⟩ ∨
    (∃ mi, e.recognize = .ok (some mi) ∧ e.subExists = .ok true ∧
      out = ⟨saveProcessedId st (tmdbMediaId mt item), [], [RegCall.checkSubscribe]⟩) ∨
    (∃ mi sid msg, e.recognize = .ok (some mi) ∧ e.subExists = .ok false ∧
      e.addResult = .ok (some sid, msg) ∧
      out = ⟨saveProcessedId st (tmdbMediaId mt item),
        if notify then [tmdbItemMessage cn mi (tmdbVote item.voteAverage) item]
        else [],
        [RegCall.checkSubscribe, RegCall.addSub]⟩) ∨
    (∃ mi msg, e.recognize = .ok (some mi) ∧ e.subExists = .ok false ∧
      e.addResult = .ok (none, msg) ∧
      out = ⟨st, [], [RegCall.checkSubscribe, RegCall.addSub]⟩) := by
  obtain ⟨os, om, ot⟩ := out
  by_cases h1 : tmdbVote item.voteAverage < minRating
  · simp [processTmdbItem, h1] at hok
    obtain ⟨e1, e2, e3⟩ := hok
    subst e1; subst e2; subst e3
    exact Or.inl rfl
  · by_cases h2 : isProcessedId st (tmdbMediaId mt item) = true
    · simp [processTmdbItem, h1, h2] at hok
      obtain ⟨e1, e2, e3⟩ := hok
      subst e1; subst e2; subst e3
      exact Or.inl rfl
    · rcases hr : e.recognize with ⟨⟩ | mo
      · simp [processTmdbItem, h1, h2, hr] at hok
      · rcases mo with _ | mi
        · simp [processTmdbItem, h1, h2, hr] at hok
          obtain ⟨e1, e2, e3⟩ := hok
          subst e1; subst e2; subst e3
          exact Or.inl rfl
        · rcases hs : e.subExists with ⟨⟩ | b
          · simp [processTmdbItem, h1, h2, hr, hs] at hok
          · rcases b with _ | _
            · rcases ha : e.addResult with ⟨⟩ | ⟨sid, msg⟩
              · simp [processTmdbItem, h1, h2, hr, hs, ha] at hok
              · rcases sid with _ | n
                · simp [processTmdbItem, h1, h2, hr, hs, ha] at hok
                  obtain ⟨e1, e2, e3⟩ := hok
                  subst e1; subst e2; subst e3
                  exact Or.inr (Or.inr (Or.inr ⟨mi, msg, rfl, rfl, rfl, rfl⟩))
                · simp [processTmdbItem, h1, h2, hr, hs, ha] at hok
                  obtain ⟨e1, e2, e3⟩ := hok
                  subst e1; subst e2; subst e3
                  refine Or.inr (Or.inr (Or.inl ⟨mi, n, msg, rfl, rfl, rfl, ?_⟩))
                  by_cases hn : notify = true <;> simp [hn]
            · simp [processTmdbItem, h1, h2, hr, hs] at hok
              obtain ⟨e1, e2, e3⟩ := hok
              subst e1; subst e2; subst e3
              exact Or.inr (Or.inl ⟨mi, rfl, rfl, rfl⟩)

theorem processTmdbItem_msgs_nil (minRating : Rat) (cn mt : String)
    (item : TmdbRaw) (e : TItemEnv) (st : TState) (out : TItemOut)
    (hok : processTmdbItem minRating false cn mt item e st = .ok out) :
    out.msgs = [] := by
  rcases processTmdbItem_cases minRating false cn mt item e st out hok with
    h | ⟨mi, -, -, h⟩ | ⟨mi, sid, msg, -, -, -, h⟩ | ⟨mi, msg, -, -, -, h⟩ <;>
    subst h <;> simp

theorem processTmdbItems_msgs (minRating : Rat) (cn mt : String)
    (env : TmdbRaw → TItemEnv) (items : List TmdbRaw) :
    ∀ (st : TState) (ns : List Notification) res,
      processTmdbItems minRating false cn mt env items st ns = .ok res →
      res.2 = ns := by
  induction items with
  | nil => intro st ns res h; cases h; rfl
  | cons it rest ih =>
    intro st ns res h
    unfold processTmdbItems at h
    rcases hi : processTmdbItem minRating false cn mt it (env it) st with ⟨⟩ | out <;>
      rw [hi] at h
    · cases h
    · have := ih out.state (ns ++ out.msgs) res h
      rw [this, processTmdbItem_msgs_nil minRating cn mt it (env it) st out hi,
        List.append_nil]

theorem processTmdbCats_msgs (minRating : Rat) (cats : List TCategory) :
    ∀ (st : TState) (ns : List Notification) res,
      processTmdbCats minRating false cats st ns = .ok res → res.2 = ns := by
  induction cats with
  | nil => intro st ns res h; cases h; rfl
  | cons c rest ih =>
    intro st ns res h
    unfold processTmdbCats at h
    rcases hc : processTmdbCategory minRating false c st with ⟨⟩ | p <;> rw [hc] at h
    · cases h
    · have hcat : p.2 = [] := by
        unfold processTmdbCategory at hc
        by_cases he : !c.enabled
        · rw [if_pos he] at hc; cases hc; rfl
        · rw [if_neg he] at hc
          by_cases hcnt : c.count ≤ 0
          · rw [if_pos hcnt] at hc; cases hc; rfl
          · rw [if_neg hcnt] at hc
            exact processTmdbItems_msgs minRating c.name c.mediaType c.itemEnv
              (getTmdbData c.fetch c.count.toNat) st [] p hc
      have := ih p.1 (ns ++ p.2) res h
      rw [this, hcat, List.append_nil]

end TmdbTrends

/-- C4 counterexample: a TMDB run with notifications enabled in which two
items are newly added posts two notifications, one per item, at
subscription time — not exactly one aggregated notification after all
categories, so the claim fails on the code. -/
theorem spec_C4_counterexample :
    cexC4notifs =
      [TmdbTrends.tmdbItemMessage "热门电影" sampleMedia 9 cexTItem,
       TmdbTrends.tmdbItemMessage "热门电影" sampleMedia 9 cexTItem2] ∧
    cexC4notifs.length = 2 := ⟨rfl, rfl⟩

/-- C4 amended: DoubanRank sends exactly one aggregated notification after
all categories when notifications are enabled and the run added something
(never per-item, nothing on an empty summary), and every notification it
posts is that aggregate over the added list; TmdbTrendsSubscribe instead
posts one notification per successfully added item at subscription time
(none when notifications are off, and a per-item message only on a
successful add with notify on). -/
theorem spec_C4_amended :
    (∀ (t : Rat) (notify : Bool) cats (hist : List DoubanRank.HistoryRecord),
        (DoubanRank.refreshDouban t notify cats hist).2.length =
          if notify = true ∧ (DoubanRank.refreshDouban t notify cats hist).1.added ≠ []
          then 1 else 0) ∧
    (∀ (t : Rat) (notify : Bool) cats (hist : List DoubanRank.HistoryRecord) n,
        n ∈ (DoubanRank.refreshDouban t notify cats hist).2 →
        n = { kind := .subscribe,
              title := "豆瓣订阅新增 "
                ++ toString (DoubanRank.refreshDouban t notify cats hist).1.added.length
                ++ " 部",
              text := String.intercalate "\n"
                ((DoubanRank.refreshDouban t notify cats hist).1.added.map
                  DoubanRank.fmtAddedLine) }) ∧
    (∀ (minRating : Rat) cats (st : TmdbTrends.TState) res,
        TmdbTrends.checkAndSubscribe minRating false cats st = .ok res →
        res.2 = []) ∧
    (∀ (minRating : Rat) (notify : Bool) (cn mt : String)
        (item : TmdbTrends.TmdbRaw) (e : TmdbTrends.TItemEnv)
        (st : TmdbTrends.TState) (out : TmdbTrends.TItemOut),
        TmdbTrends.processTmdbItem minRating notify cn mt item e st = .ok out →
        out.msgs = [] ∨
        (notify = true ∧ ∃ mi sid msg, e.recognize = .ok (some mi) ∧
          e.addResult = .ok (some sid, msg) ∧
          out.msgs = [TmdbTrends.tmdbItemMessage cn mi
            (TmdbTrends.tmdbVote item.voteAverage) item])) := by
  refine ⟨fun t notify cats hist => ?_, fun t notify cats hist n hn => ?_,
    fun minRating cats st res h => TmdbTrends.processTmdbCats_msgs minRating cats st [] res h,
    fun minRating notify cn mt item e st out hok => ?_⟩
  · cases notify with
    | false => simp [DoubanRank.refreshDouban]
    | true =>
      rcases hl : (DoubanRank.runDoubanCats t cats { history := hist, added := [] }).added
        with _ | ⟨a, as⟩
      · simp [DoubanRank.refreshDouban, hl]
      · simp [DoubanRank.refreshDouban, hl, DoubanRank.sendNotification]
  · cases notify with
    | false => simp [DoubanRank.refreshDouban] at hn
    | true =>
      rcases hl : (DoubanRank.runDoubanCats t cats { history := hist, added := [] }).added
        with _ | ⟨a, as⟩
      · simp [DoubanRank.refreshDouban, hl] at hn
      · simp [DoubanRank.refreshDouban, hl, DoubanRank.sendNotification] at hn
        simp [DoubanRank.refreshDouban, hl, hn]
  · rcases TmdbTrends.processTmdbItem_cases minRating notify cn mt item e st out hok with
      h | ⟨mi, -, -, h⟩ | ⟨mi, sid, msg, hr, -, ha, h⟩ | ⟨mi, msg, -, -, -, h⟩
    · subst h; exact Or.inl rfl
    · subst h; exact Or.inl rfl
    · subst h
      cases notify with
      | false => exact Or.inl rfl
      | true => exact Or.inr ⟨rfl, mi, sid, msg, hr, ha, by simp⟩
    · subst h; exact Or.inl rfl

/-- C4 witness: a notification-off TMDB run posts nothing, and the single
notification of a concrete notification-on DoubanRank run that added one
item is the aggregate over the added list. -/
theorem spec_C4_amended_witness :
    ((⟨["movie_7", "movie_8"], ["movie_7", "movie_8"]⟩, ([] : List Notification)) :
        TmdbTrends.TState × List Notification).2 = [] ∧
    cexAggNote =
      { kind := .subscribe,
        title := "豆瓣订阅新增 "
          ++ toString (DoubanRank.refreshDouban 0 true
              [(DoubanRank.rankConfMovieHot, cexDoubanCatEnv)] []).1.added.length
          ++ " 部",
        text := String.intercalate "\n"
          ((DoubanRank.refreshDouban 0 true
              [(DoubanRank.rankConfMovieHot, cexDoubanCatEnv)] []).1.added.map
            DoubanRank.fmtAddedLine) } := by
  constructor
  · exact spec_C4_amended.2.2.1 0 [cexC4cat] ⟨[], []⟩ _ rfl
  · exact spec_C4_amended.2.1 0 true
      [(DoubanRank.rankConfMovieHot, cexDoubanCatEnv)] [] cexAggNote (by decide)

/-! ## C7: exception isolation in the per-category loop -/

/-- C7 counterexample: in TmdbTrendsSubscribe a raise during the first
item of the first category propagates out of check_and_subscribe
unhandled, aborting the run before the second category is processed — the
claim that no exception from the per-category loop reaches the caller
fails on the code. -/
theorem spec_C7_counterexample :
    TmdbTrends.checkAndSubscribe 0 true [cexBadCat, cexC4cat] ⟨[], []⟩ =
      .error () := rfl

/-- C7 amended: in DoubanRank the category loop composes over category
lists for every oracle environment (so each later category is processed
from the committed state no matter what earlier categories did), and a
raise inside an item aborts only the remaining items of that category,
keeping the committed state; in TmdbTrendsSubscribe a raise from a
category (for instance a recognition raise on a reachable item) propagates
out of check_and_subscribe, aborting the remaining categories. -/
theorem spec_C7_amended :
    (∀ (t : Rat) (cats1 cats2 : List (DoubanRank.RankConf × DoubanRank.CategoryEnv))
        (st : DoubanRank.ItemStep),
        DoubanRank.runDoubanCats t (cats1 ++ cats2) st =
          DoubanRank.runDoubanCats t cats2 (DoubanRank.runDoubanCats t cats1 st)) ∧
    (∀ (t : Rat) (cn : String) (ri : DoubanRank.RunItem) rest
        (st : DoubanRank.ItemStep) e,
        DoubanRank.processDoubanItem t cn ri st = .error e →
        DoubanRank.processDoubanItems t cn (ri :: rest) st = (st, true)) ∧
    (∀ (mr : Rat) (notify : Bool) (c : TmdbTrends.TCategory) cs
        (st : TmdbTrends.TState) e,
        TmdbTrends.processTmdbCategory mr notify c st = .error e →
        TmdbTrends.checkAndSubscribe mr notify (c :: cs) st = .error e) ∧
    (∀ (mr : Rat) (notify : Bool) (cn mt : String) (item : TmdbTrends.TmdbRaw)
        (e : TmdbTrends.TItemEnv) (st : TmdbTrends.TState),
        ¬(TmdbTrends.tmdbVote item.voteAverage < mr) →
        TmdbTrends.isProcessedId st (TmdbTrends.tmdbMediaId mt item) = false →
        e.recognize = .error () →
        TmdbTrends.processTmdbItem mr notify cn mt item e st = .error ()) := by
  refine ⟨fun t cats1 cats2 st => ?_, fun t cn ri rest st e h => ?_,
    fun mr notify c cs st e h => ?_, fun mr notify cn mt item e st h1 h2 h3 => ?_⟩
  · simp [DoubanRank.runDoubanCats, List.foldl_append]
  · simp [DoubanRank.processDoubanItems, h]
  · simp [TmdbTrends.checkAndSubscribe, TmdbTrends.processTmdbCats, h]
  · simp [TmdbTrends.processTmdbItem, h1, h2, h3]

/-- C7 witness: a concrete raising douban item aborts its category while
keeping the prior state, a concrete raising TMDB category aborts the whole
run, and a concrete reachable TMDB item with a raising recognition call
raises. -/
theorem spec_C7_amended_witness :
    DoubanRank.processDoubanItems 0 "热门电影" [cexRunItemRaise] ⟨[], []⟩ =
      (⟨[], []⟩, true) ∧
    TmdbTrends.checkAndSubscribe 0 true [cexBadCat] ⟨[], []⟩ = .error () ∧
    TmdbTrends.processTmdbItem 0 true "热门电影" "movie" cexTItem cexTItemEnvRaise
      ⟨[], []⟩ = .error () := by
  refine ⟨spec_C7_amended.2.1 0 "热门电影" cexRunItemRaise [] ⟨[], []⟩ () rfl,
    spec_C7_amended.2.2.1 0 true cexBadCat [] ⟨[], []⟩ () rfl,
    spec_C7_amended.2.2.2 0 true "热门电影" "movie" cexTItem cexTItemEnvRaise
      ⟨[], []⟩ (by decide) rfl rfl⟩
